import Mathlib

/-!
Shallow embedding of `experiment/run_experiment.py`: the experiment-launch
path of a fuzzing benchmark service.  Configuration documents (parsed YAML)
are modelled as association lists from string keys to scalar values;
filesystem / network effects are modelled by explicit success flags and
`Except` results; Python exceptions (`ValidationError`, `KeyError`,
generic `Exception`) become `Except` error values.
-/

deriving instance DecidableEq for Except

namespace RunExperiment

/-! ### Character-list string primitives

Python string operations (`startswith`, `endswith`, `lower`, `re.match`)
are modelled on the character sequence of the string.  All configuration
values in this program are ASCII and newline-free (they are YAML scalar
keys, paths and bucket URIs), so ASCII lowercasing and `.`-matches-any
regex semantics coincide with Python's. -/

/-- ASCII lowercasing of one character (`str.lower` restricted to ASCII). -/
def toLowerChar (c : Char) : Char :=
  if 'A' ≤ c ∧ c ≤ 'Z' then Char.ofNat (c.toNat + 32) else c

/-- `str.lower` on the character sequence. -/
def lowerChars (l : List Char) : List Char := l.map toLowerChar

/-- Does `l` start with `pre` (`str.startswith`)? -/
def startsWithChars : List Char → List Char → Bool
  | [], _ => true
  | _ :: _, [] => false
  | a :: as, b :: bs => a == b && startsWithChars as bs

/-- Does `l` end with `suf` (`str.endswith`)? -/
def endsWithChars (suf l : List Char) : Bool :=
  startsWithChars suf.reverse l.reverse

/-- Does `needle` occur contiguously anywhere in `hay`? -/
def hasSubstringChars (needle : List Char) : List Char → Bool
  | [] => startsWithChars needle []
  | c :: rest => startsWithChars needle (c :: rest) || hasSubstringChars needle rest

/-- A scalar YAML/Python value as it appears in the experiment and fuzzer
configuration documents.  `vDict` models a Python `dict` value (only its
dict-ness is ever inspected, by `validate_fuzzer_config`); `vNone` models
Python `None`. -/
inductive Value where
  | vInt (n : Int)
  | vBool (b : Bool)
  | vStr (s : String)
  | vDict (entries : List (String × String))
  | vNone
deriving DecidableEq, Repr

/-- A parsed YAML mapping (`config` in the Python source): an association
list looked up by first match, mirroring dict lookup. -/
def Config := List (String × Value)

instance : DecidableEq Config := by unfold Config; infer_instance

/-- `config.get(key)` / `key in config`: first-match association lookup. -/
def configGet (config : Config) (key : String) : Option Value :=
  match config with
  | [] => none
  | (k, v) :: rest => if k = key then some v else configGet rest key

/-- `key in config`. -/
def containsKey (config : Config) (key : String) : Bool :=
  (configGet config key).isSome

/-- Python truthiness of a value (`if value:`): `0`, `False`, `""`, `{}` and
`None` are falsy. -/
def truthy : Value → Bool
  | .vInt n => n != 0
  | .vBool b => b
  | .vStr s => s != ""
  | .vDict entries => !entries.isEmpty
  | .vNone => false

/-- Truthiness of a `config.get(key)` result (absent key ⇒ `None` ⇒ falsy). -/
def truthyOpt : Option Value → Bool
  | none => false
  | some v => truthy v

/-- `isinstance(value, int)`.  Python `bool` is a subclass of `int`, so
booleans count as ints here, exactly as in CPython. -/
def isInt : Value → Bool
  | .vInt _ => true
  | .vBool _ => true
  | _ => false

/-- `isinstance(value, str) and value == value.lower()` — i.e. the negation
of the condition that fires the "must be a lowercase string" error. -/
def isLowercaseString : Value → Bool
  | .vStr s => s.data == lowerChars s.data
  | _ => false

/-- `value.startswith(prefix)` for a config value; a non-string value never
starts with anything (the source only reaches `startswith` on values that
already passed the string check). -/
def valueStartsWith (v : Value) (pre : String) : Bool :=
  match v with
  | .vStr s => startsWithChars pre.data s.data
  | _ => false

/-! ### `read_and_validate_experiment_config` (source lines 64–123) -/

/-- `filestore_params` (source line 68). -/
def filestore_params : List String := ["experiment_filestore", "report_filestore"]

/-- `cloud_config` (source line 69). -/
def cloud_config : List String := ["cloud_compute_zone"]

/-- `string_params = cloud_config | filestore_params` (source line 70). -/
def string_params : List String := cloud_config ++ filestore_params

/-- `int_params` (source line 71). -/
def int_params : List String := ["trials", "max_total_time"]

/-- `required_params` (source lines 72–76): the int and filestore keys,
plus the cloud keys unless the experiment is local.  The source builds a
Python `set`, whose iteration order is unspecified; we fix one order, and
state order-insensitive properties about the resulting error list. -/
def required_params (local_experiment : Bool) : List String :=
  if local_experiment then int_params ++ filestore_params
  else int_params ++ filestore_params ++ cloud_config

/-- `local_experiment = config.get('local_experiment', False)`, used for its
truthiness (source lines 74–75). -/
def localExperiment (config : Config) : Bool :=
  truthyOpt (configGet config "local_experiment")

/-- One `logs.error` call of `read_and_validate_experiment_config`,
tagged by which check fired. -/
inductive ConfigError where
  | legacyKeys
  | missing (param : String)
  | notInt (param : String)
  | notLowercaseString (param : String)
  | badLocalScheme (param : String)
  | badCloudScheme (param : String)
deriving DecidableEq, Repr

/-- The body of the `for param in required_params` loop (source lines
83–119): at most one error is logged per parameter, because every failed
check ends in `continue`.  `none` means the parameter passed every check. -/
def paramError (local_experiment : Bool) (config : Config) (param : String) :
    Option ConfigError :=
  match configGet config param with
  | none => some (.missing param)
  | some value =>
    if param ∈ int_params ∧ ¬ isInt value then some (.notInt param)
    else if param ∈ string_params ∧ ¬ isLowercaseString value then
      some (.notLowercaseString param)
    else if param ∉ filestore_params then none
    else if local_experiment ∧ ¬ valueStartsWith value "/" then
      some (.badLocalScheme param)
    else if ¬ local_experiment ∧ ¬ valueStartsWith value "gs://" then
      some (.badCloudScheme param)
    else none

/-- `'cloud_experiment_bucket' in config or 'cloud_web_bucket' in config`
(source line 79). -/
def hasLegacyBucketKey (config : Config) : Bool :=
  containsKey config "cloud_experiment_bucket" ||
    containsKey config "cloud_web_bucket"

/-- Every `logs.error` emitted by `read_and_validate_experiment_config`:
the legacy-bucket message (source lines 79–81), which does **not** touch
`valid`, followed by the per-parameter errors of the loop. -/
def loggedErrors (config : Config) : List ConfigError :=
  (if hasLegacyBucketKey config then [ConfigError.legacyKeys] else []) ++
    (required_params (localExperiment config)).filterMap
      (paramError (localExperiment config) config)

/-- The final value of the `valid` flag: it is set to `False` exactly by
the per-parameter checks of the loop (source lines 83–119); the
legacy-bucket branch only logs. -/
def configValid (config : Config) : Bool :=
  ((required_params (localExperiment config)).filterMap
      (paramError (localExperiment config) config)).isEmpty

/-- `read_and_validate_experiment_config` (source lines 64–123) on an
already-parsed document: returns the config, or raises `ValidationError`
(modelled as `.error`) when `valid` ended up `False`. -/
def read_and_validate_experiment_config (config : Config) :
    Except String Config :=
  if configValid config then .ok config
  else .error "Config is invalid."

/-! ### Fuzzer names and fuzzer configs (source lines 45, 146–180, 214–218) -/

/-- One character of the class `[a-z0-9_]` of `FUZZER_NAME_REGEX`. -/
def fuzzerNameChar (c : Char) : Bool :=
  ('a' ≤ c && c ≤ 'z') || ('0' ≤ c && c ≤ '9') || c == '_'

/-- `re.match(FUZZER_NAME_REGEX, s)` for `^[a-z0-9_]+$` (source line 45):
at least one character, all from the class. -/
def matchesFuzzerNameRegex (s : String) : Bool :=
  !s.data.isEmpty && s.data.all fuzzerNameChar

/-- `validate_fuzzer` (source lines 146–155).  The filesystem listing of
the fuzzers root is an external input; it is passed in as the list
`fuzzersDirectories` of existing fuzzer directory names. -/
def validate_fuzzer (fuzzersDirectories : List String) (fuzzer : String) :
    Except String Unit :=
  if ¬ matchesFuzzerNameRegex fuzzer then
    .error "Fuzzer may only contain lowercase letters, numbers, or underscores."
  else if fuzzer ∉ fuzzersDirectories then
    .error "Fuzzer does not exist."
  else .ok ()

/-- A fuzzer configuration document: the same association-list model as the
experiment config. -/
def FuzzerConfig := Config

/-- `value.isStr` extraction: Python code that concatenates or
regex-matches a value assumes it is a string; a non-string here is a
Python `TypeError`, modelled as `none`. -/
def Value.asString : Value → Option String
  | .vStr s => some s
  | _ => none

/-- The tail of `validate_fuzzer_config` (source lines 178–180):
`fuzzer = fuzzer_config.get('fuzzer'); if fuzzer: validate_fuzzer(fuzzer)`.
Note the truthiness test: an empty-string `fuzzer` value skips
`validate_fuzzer` entirely. -/
def validateFuzzerValue (fuzzersDirectories : List String)
    (fuzzer_config : FuzzerConfig) : Except String Unit :=
  if truthyOpt (configGet fuzzer_config "fuzzer") then
    match (configGet fuzzer_config "fuzzer").bind Value.asString with
    | none => .error "TypeError: expected string or bytes-like object"
    | some fuzzer => validate_fuzzer fuzzersDirectories fuzzer
  else .ok ()

/-- `validate_fuzzer_config` (source lines 158–180), check for check in
source order.  Note the truthiness subtlety of the source: the `name`
charset check runs only when `name` is *truthy*, so an empty-string name
skips it. -/
def validate_fuzzer_config (fuzzersDirectories : List String)
    (fuzzer_config : FuzzerConfig) : Except String Unit :=
  if ¬ containsKey fuzzer_config "fuzzer" then
    .error "Fuzzer configuration must include the fuzzer field."
  else if ¬ (fuzzer_config.all fun kv =>
      kv.1 ∈ (["name", "env", "fuzzer"] : List String)) then
    .error "Invalid entry in fuzzer configuration."
  else if containsKey fuzzer_config "env" &&
      !(match configGet fuzzer_config "env" with
        | some (.vDict _) => true
        | _ => false) then
    .error "Fuzzer environment env must be a dict."
  else if truthyOpt (configGet fuzzer_config "name") then
    match (configGet fuzzer_config "name").bind Value.asString with
    | none => .error "TypeError: expected string or bytes-like object"
    | some name =>
      if ¬ matchesFuzzerNameRegex name then
        .error "The name option may only contain lowercase letters, numbers, or underscores."
      else validateFuzzerValue fuzzersDirectories fuzzer_config
  else validateFuzzerValue fuzzersDirectories fuzzer_config

/-- `get_full_fuzzer_name` (source lines 214–218): the bare `fuzzer` value
when no `name` key is present, else `fuzzer + '_' + name`.  `none` models
the `KeyError`/`TypeError` Python would raise when the accessed values are
absent or non-strings. -/
def get_full_fuzzer_name (fuzzer_config : FuzzerConfig) : Option String :=
  if ¬ containsKey fuzzer_config "name" then
    (configGet fuzzer_config "fuzzer").bind Value.asString
  else
    match (configGet fuzzer_config "fuzzer").bind Value.asString,
          (configGet fuzzer_config "name").bind Value.asString with
    | some fuzzer, some name => some (fuzzer ++ "_" ++ name)
    | _, _ => none

/-! ### `FILTER_SOURCE_REGEX` and the archive filter (source lines 47–59,
279–283)

`re.match` anchors every alternative at the start of the path, so each
alternative of the big disjunction becomes a predicate on the path's
character sequence.  Tar member names contain no newline, so `.` matches
every character and `$` is end-of-string. -/

/-- One path matched against `FILTER_SOURCE_REGEX` (source lines 47–59),
alternative by alternative, in source order. -/
def matchesFilterSourceRegex (name : String) : Bool :=
  startsWithChars ".git/".data name.data ||          -- ^\.git/
  startsWithChars ".pytype/".data name.data ||       -- ^\.pytype/
  startsWithChars ".venv/".data name.data ||         -- ^\.venv/
  endsWithChars ".pyc".data name.data ||             -- ^.*\.pyc$
  startsWithChars "__pycache__/".data name.data ||   -- ^__pycache__/
  endsWithChars "~".data name.data ||                -- .*~$
  (!name.data.isEmpty && name.data.all (· == '#')) ||  -- \#*\#$
  startsWithChars ".pytest_cache/".data name.data || -- \.pytest_cache/
  hasSubstringChars "/test_data/".data name.data ||  -- .*/test_data/
  startsWithChars "third_party/oss-fuzz/build/".data name.data ||
  (name.data.length == 19 && startsWithChars "docker/generated".data name.data
    && endsWithChars "mk".data name.data) ||         -- ^docker/generated.mk$
  startsWithChars "docs/".data name.data             -- ^docs/

/-- `filter_file` (source lines 279–283): drop a tar member whose name
matches the denylist regex, keep it unchanged otherwise. -/
def filter_file (name : String) : Option String :=
  if matchesFilterSourceRegex name then none else some name

/-! ### `copy_resources_to_bucket` (source lines 275–302)

The effectful part is modelled as a state machine over the launcher host's
disk and the remote store.  The two remote operations (`filestore_utils.cp`
and `filestore_utils.rsync`) are external collaborators that may fail;
their outcomes are the two Boolean parameters. -/

/-- Observable state of one `copy_resources_to_bucket` run. -/
structure BundleState where
  /-- Is the local `src.tar.gz` present on disk? -/
  archiveOnDisk : Bool
  /-- Has the archive been uploaded to `<base>/input/`? -/
  archiveUploaded : Bool
  /-- Has the config directory been rsynced to `<base>/input/config`? -/
  configSynced : Bool
deriving DecidableEq, Repr

/-- `copy_resources_to_bucket` (source lines 275–302): create the archive,
`cp` it to the store, `os.remove` it, then `rsync` the config directory.
There is no `try`/`finally`: a failing step raises immediately and the
following statements never run.  Returns the final host/store state and
whether the call returned normally (`true`) or raised (`false`). -/
def copy_resources_to_bucket (cpSucceeds rsyncSucceeds : Bool) :
    BundleState × Bool :=
  -- tarfile.open(...) ... tar.add(...): the archive now exists locally.
  let afterTar : BundleState := ⟨true, false, false⟩
  if ¬ cpSucceeds then
    -- filestore_utils.cp raised: os.remove is never reached.
    (afterTar, false)
  else
    -- cp succeeded, then os.remove(source_archive).
    let afterRemove : BundleState := ⟨false, true, false⟩
    if ¬ rsyncSucceeds then (afterRemove, false)
    else ({ afterRemove with configSynced := true }, true)

/-! ### Dispatchers (source lines 305–470) -/

/-- Python `str(value)` as used by `format` interpolation. -/
def pyStr : Value → String
  | .vInt n => toString n
  | .vBool b => if b then "True" else "False"
  | .vStr s => s
  | .vDict _ => "<dict>"
  | .vNone => "None"

/-- `experiment_utils.get_dispatcher_instance_name` — external collaborator
(`common/experiment_utils.py`); its exact value is irrelevant to every
claim, only that it is derived from the experiment name. -/
def get_dispatcher_instance_name (experiment : String) : String :=
  "dispatcher-" ++ experiment

/-- `experiment_utils.get_base_docker_tag` — external collaborator; modelled
as the project-qualified registry tag.  Its exact value is irrelevant to
every claim. -/
def get_base_docker_tag (cloud_project : String) : String :=
  "gcr.io/" ++ cloud_project

/-- The two dispatcher variants produced by `get_dispatcher` (source lines
323–470): each holds its config by reference. -/
inductive Dispatcher where
  | localDispatcher (config : Config)
  | googleCloudDispatcher (config : Config)
deriving DecidableEq

/-- `get_dispatcher` (source lines 465–470): `config.get('local_experiment')`
truthy selects the local variant, anything else (including an absent key)
the Google Cloud variant. -/
def get_dispatcher (config : Config) : Dispatcher :=
  if truthyOpt (configGet config "local_experiment") then
    .localDispatcher config
  else .googleCloudDispatcher config

/-- A `config[key]` subscript access: `KeyError` (modelled as `.error key`)
when the key is absent. -/
def configSubscript (config : Config) (key : String) : Except String Value :=
  match configGet config key with
  | none => .error key
  | some v => .ok v

/-- `LocalDispatcher.start` (source lines 335–404) up to handing the
assembled `docker run` command line to `new_process.execute`.  Config keys
are read by subscript, in source order, so the first absent key raises
`KeyError` (`.error` carrying the key).  `os.path.abspath` is modelled as
the identity: validation guarantees local filestore paths are already
absolute.  The repeated subscripts of the same key in the source always
repeat the first result and are collapsed. -/
def localDispatcherStart (instance_name : String) (config : Config) :
    Except String (List String) :=
  match configSubscript config "experiment_filestore" with
  | .error k => .error k
  | .ok experimentFilestore =>
    match configSubscript config "cloud_project" with
    | .error k => .error k
    | .ok cloudProject =>
      match configSubscript config "experiment" with
      | .error k => .error k
      | .ok experiment =>
        match configSubscript config "report_filestore" with
        | .error k => .error k
        | .ok reportFilestore =>
          let sqlDatabaseArg := "SQL_DATABASE_URL=sqlite:///" ++
            pyStr experimentFilestore ++ "/local.db"
          let baseDockerTag := get_base_docker_tag (pyStr cloudProject)
          .ok ["docker", "run", "-ti", "--rm",
            "-v", "/var/run/docker.sock:/var/run/docker.sock",
            "-v", pyStr experimentFilestore ++ ":" ++ pyStr experimentFilestore,
            "-v", pyStr reportFilestore ++ ":" ++ pyStr reportFilestore,
            "-e", "INSTANCE_NAME=" ++ instance_name,
            "-e", "EXPERIMENT=" ++ pyStr experiment,
            "-e", "CLOUD_PROJECT=" ++ pyStr cloudProject,
            "-e", sqlDatabaseArg,
            "-e", "EXPERIMENT_FILESTORE=" ++ pyStr experimentFilestore,
            "-e", "REPORT_FILESTORE=" ++ pyStr reportFilestore,
            "-e", "LOCAL_EXPERIMENT=True",
            "--cap-add=SYS_PTRACE", "--cap-add=SYS_NICE",
            "--name=dispatcher-container",
            baseDockerTag ++ "/dispatcher-image",
            "/bin/bash", "-c",
            "rsync -r \"${EXPERIMENT_FILESTORE}/${EXPERIMENT}/input/\" ${WORK} && " ++
            "mkdir ${WORK}/src && " ++
            "tar -xvzf ${WORK}/src.tar.gz -C ${WORK}/src && " ++
            "source \"${WORK}/.venv/bin/activate\" && " ++
            "pip3 install -r \"${WORK}/src/requirements.txt\" && " ++
            "PYTHONPATH=${WORK}/src python3 ${WORK}/src/experiment/dispatcher.py || " ++
            "/bin/bash"]

/-- The database-connectivity gate of `start_experiment` (source lines
253–258): skipped for local experiments; otherwise `POSTGRES_PASSWORD`
must be set in the environment, and then `config['cloud_project']` is read
by subscript (a `KeyError` when absent, since validation never requires
that key). -/
def startExperimentProjectSwitch (postgresPasswordSet : Bool)
    (config : Config) : Except String Unit :=
  if localExperiment config then .ok ()
  else if ¬ postgresPasswordSet then
    .error "Must set POSTGRES_PASSWORD environment variable."
  else
    match configSubscript config "cloud_project" with
    | .error k => .error k
    | .ok _ => .ok ()

/-! ### The launch sequence as an event trace (source lines 237–272)

`start_experiment` and `start_dispatcher` are straight-line code in one
thread; their temporal behaviour is the list of externally observable
steps, in program order.  A step that raises truncates the run to a prefix
of this trace, which preserves every ordering statement below. -/

/-- One observable step of `start_experiment` / `start_dispatcher`. -/
inductive LaunchEvent where
  | checkNoLocalChanges
  | validateExperimentName
  | validateBenchmarks
  | readAndValidateConfig
  | writeExperimentConfigFile
  | writeFuzzerConfigFiles
  | checkPostgresPassword
  | setDefaultProject
  | dispatcherCreateAsync
  | copyResourcesToBucket
  | dispatcherStart
deriving DecidableEq, Repr

/-- `start_dispatcher` (source lines 263–272): `create_async` unless the
`MANUAL_EXPERIMENT` environment variable is set, then
`copy_resources_to_bucket`, then `dispatcher.start()` unless manual. -/
def start_dispatcher_trace (manualExperiment : Bool) : List LaunchEvent :=
  (if manualExperiment then [] else [.dispatcherCreateAsync]) ++
    [.copyResourcesToBucket] ++
    (if manualExperiment then [] else [.dispatcherStart])

/-- `start_experiment` (source lines 237–260): validation, config
enrichment and config-file writing, the non-local database gate, then
`start_dispatcher`. -/
def start_experiment_trace (localExp manualExperiment : Bool) :
    List LaunchEvent :=
  [.checkNoLocalChanges, .validateExperimentName, .validateBenchmarks,
   .readAndValidateConfig, .writeExperimentConfigFile,
   .writeFuzzerConfigFiles] ++
  (if localExp then [] else [.checkPostgresPassword, .setDefaultProject]) ++
  start_dispatcher_trace manualExperiment

/-- Position of an event in program order, used to state that the traces
are strictly ordered. -/
def eventRank : LaunchEvent → Nat
  | .checkNoLocalChanges => 0
  | .validateExperimentName => 1
  | .validateBenchmarks => 2
  | .readAndValidateConfig => 3
  | .writeExperimentConfigFile => 4
  | .writeFuzzerConfigFiles => 5
  | .checkPostgresPassword => 6
  | .setDefaultProject => 7
  | .dispatcherCreateAsync => 8
  | .copyResourcesToBucket => 9
  | .dispatcherStart => 10

/-! ### Spec-side refinement definition and named example configs -/

/-- Modelled from the claim's words, *not* from the source (refinement
definition, for comparison with `paramError`): **all** required-parameter
rules the parameter violates — missing key, non-int value for an int key,
non-string or non-lowercase value for a string key, wrong filestore path
scheme — not only the first one the source's check order encounters. -/
def paramRuleViolations (local_experiment : Bool) (config : Config)
    (param : String) : List ConfigError :=
  match configGet config param with
  | none => [ConfigError.missing param]
  | some value =>
    (if param ∈ int_params ∧ ¬ isInt value
      then [ConfigError.notInt param] else []) ++
    (if param ∈ string_params ∧ ¬ isLowercaseString value
      then [ConfigError.notLowercaseString param] else []) ++
    (if param ∈ filestore_params ∧ local_experiment ∧
        ¬ valueStartsWith value "/"
      then [ConfigError.badLocalScheme param] else []) ++
    (if param ∈ filestore_params ∧ ¬ local_experiment ∧
        ¬ valueStartsWith value "gs://"
      then [ConfigError.badCloudScheme param] else [])

/-- The filestore path-scheme rule, in the deployment-mode phrasing of the
spec: local experiments need a POSIX absolute path, cloud experiments a
`gs://` URI. -/
def filestoreSchemeOk (local_experiment : Bool) (v : Value) : Bool :=
  if local_experiment then valueStartsWith v "/"
  else valueStartsWith v "gs://"

/-- Has the `env` key either absent or bound to a dict — the shape the
source's env check accepts. -/
def envFieldOk (fuzzer_config : FuzzerConfig) : Bool :=
  match configGet fuzzer_config "env" with
  | none => true
  | some (.vDict _) => true
  | some _ => false

/-- A config that carries the legacy `cloud_experiment_bucket` key and
satisfies every required-parameter rule of a cloud experiment. -/
def legacyBucketConfig : Config :=
  [("cloud_experiment_bucket", .vStr "gs://old-bucket"),
   ("trials", .vInt 5), ("max_total_time", .vInt 100),
   ("cloud_compute_zone", .vStr "us-central1-a"),
   ("experiment_filestore", .vStr "gs://bucket"),
   ("report_filestore", .vStr "gs://bucket-report")]

/-- A cloud config whose `experiment_filestore` value violates two rules at
once: it contains uppercase characters *and* does not start with `gs://`. -/
def mixedCaseFilestoreConfig : Config :=
  [("trials", .vInt 5), ("max_total_time", .vInt 100),
   ("cloud_compute_zone", .vStr "us-central1-a"),
   ("experiment_filestore", .vStr "GS://BUCKET"),
   ("report_filestore", .vStr "gs://bucket-report")]

/-- A local config whose `experiment_filestore` value is a lowercase
`gs://` URI — the wrong scheme for a local experiment. -/
def wrongSchemeConfig : Config :=
  [("local_experiment", .vBool true),
   ("trials", .vInt 5), ("max_total_time", .vInt 100),
   ("experiment_filestore", .vStr "gs://bucket"),
   ("report_filestore", .vStr "/tmp/report-data")]

/-- A local config that passes validation, has the launcher-injected
`experiment` key, and has no `cloud_project` key. -/
def localNoProjectConfig : Config :=
  [("local_experiment", .vBool true),
   ("trials", .vInt 10), ("max_total_time", .vInt 3600),
   ("experiment_filestore", .vStr "/tmp/experiment-data"),
   ("report_filestore", .vStr "/tmp/report-data"),
   ("experiment", .vStr "test-experiment")]

/-- A cloud config that passes validation and has no `cloud_project` key. -/
def cloudNoProjectConfig : Config :=
  [("trials", .vInt 10), ("max_total_time", .vInt 3600),
   ("cloud_compute_zone", .vStr "us-central1-a"),
   ("experiment_filestore", .vStr "gs://bucket"),
   ("report_filestore", .vStr "gs://bucket-report")]

/-! ## Supporting lemmas -/

/-- The `valid` flag survives to the end exactly when no required parameter
fails any check of the loop. -/
theorem configValid_iff (config : Config) :
    configValid config = true ↔
      ∀ p ∈ required_params (localExperiment config),
        paramError (localExperiment config) config p = none := by
  unfold configValid
  rw [List.isEmpty_iff]
  exact List.filterMap_eq_nil_iff

/-- `read_and_validate_experiment_config` returns its input unchanged
exactly when the `valid` flag survived. -/
theorem validate_ok_iff (config : Config) :
    read_and_validate_experiment_config config = .ok config ↔
      configValid config = true := by
  unfold read_and_validate_experiment_config
  split <;> simp_all

/-- When the `valid` flag is `False`, `ValidationError` is raised. -/
theorem validate_error_of_invalid (config : Config)
    (h : configValid config = false) :
    read_and_validate_experiment_config config = .error "Config is invalid." := by
  unfold read_and_validate_experiment_config
  rw [h]
  rfl

/-- A parameter that passes every check of the loop is in particular
present in the config. -/
theorem paramError_none_elim (l : Bool) (config : Config) (p : String)
    (h : paramError l config p = none) :
    ∃ v, configGet config p = some v := by
  unfold paramError at h
  cases hg : configGet config p with
  | none => rw [hg] at h; simp at h
  | some v => exact ⟨v, rfl⟩

/-- Both filestore parameters are required in both deployment modes. -/
theorem filestore_mem_required (l : Bool) (param : String)
    (hf : param ∈ filestore_params) : param ∈ required_params l := by
  fin_cases hf <;> cases l <;> decide

/-! ## C1 — legacy bucket keys -/

/-- C1, counterexample: a config carrying the legacy key
`cloud_experiment_bucket` that satisfies every other validation rule is
**accepted** by `read_and_validate_experiment_config` — the claim that it
is rejected with a `ValidationError` is false.  (The source logs the
legacy-key message but never sets `valid = False` for it.) -/
theorem legacy_bucket_key_accepted_when_otherwise_valid :
    hasLegacyBucketKey legacyBucketConfig = true ∧
    read_and_validate_experiment_config legacyBucketConfig =
      .ok legacyBucketConfig := by
  decide

/-- C1, amended: a legacy bucket key (`cloud_experiment_bucket` or
`cloud_web_bucket`) makes `read_and_validate_experiment_config` log the
renamed-keys error, but does not by itself make validation fail: when
every required-parameter rule is satisfied the config is still returned
successfully. -/
theorem legacy_bucket_key_logged_but_not_rejected (config : Config)
    (h : hasLegacyBucketKey config = true) :
    ConfigError.legacyKeys ∈ loggedErrors config ∧
    (configValid config = true →
      read_and_validate_experiment_config config = .ok config) := by
  constructor
  · unfold loggedErrors
    rw [h]
    simp
  · intro hv
    exact (validate_ok_iff config).mpr hv

/-- C1, witness: the amended statement evaluated at `legacyBucketConfig`. -/
theorem legacy_bucket_key_logged_but_not_rejected_witness :
    ConfigError.legacyKeys ∈ loggedErrors legacyBucketConfig ∧
    read_and_validate_experiment_config legacyBucketConfig =
      .ok legacyBucketConfig :=
  ⟨(legacy_bucket_key_logged_but_not_rejected legacyBucketConfig (by decide)).1,
   (legacy_bucket_key_logged_but_not_rejected legacyBucketConfig (by decide)).2
     (by decide)⟩

/-! ## C2 — local archive cleanup in `copy_resources_to_bucket` -/

/-- C2, counterexample: when the upload (`filestore_utils.cp`) raises, the
call propagates the failure and `src.tar.gz` **remains on disk** — the
claim that the archive never remains, even on upload failure, is false.
(`os.remove` follows `cp` with no `try`/`finally`.) -/
theorem archive_left_on_disk_when_upload_fails :
    (copy_resources_to_bucket false true).2 = false ∧
    (copy_resources_to_bucket false true).1.archiveOnDisk = true := by
  decide

/-- C2, amended: `copy_resources_to_bucket` deletes the local `src.tar.gz`
exactly when the upload succeeds (whatever the later config rsync does);
when the upload raises, the failure propagates and the archive remains on
disk.  The call returns normally iff both remote operations succeed. -/
theorem archive_removed_iff_upload_succeeds
    (cpSucceeds rsyncSucceeds : Bool) :
    (copy_resources_to_bucket cpSucceeds rsyncSucceeds).1.archiveOnDisk =
      !cpSucceeds ∧
    (copy_resources_to_bucket cpSucceeds rsyncSucceeds).2 =
      (cpSucceeds && rsyncSucceeds) := by
  cases cpSucceeds <;> cases rsyncSucceeds <;> exact ⟨rfl, rfl⟩

/-! ## C3 — error reporting of `read_and_validate_experiment_config` -/

/-- The loop body logs exactly the *first* rule (in the source's check
order) among all the rules the parameter violates. -/
theorem paramError_eq_head_violations (l : Bool) (config : Config)
    (param : String) :
    paramError l config param =
      (paramRuleViolations l config param).head? := by
  unfold paramError paramRuleViolations
  cases hg : configGet config param with
  | none => rfl
  | some v =>
    split_ifs <;> simp_all
    all_goals split_ifs <;> simp_all [Option.or]

/-- C3, counterexample: in `mixedCaseFilestoreConfig` the value of
`experiment_filestore` violates **two** required-parameter rules (it is
not lowercase, and it does not start with `gs://` in cloud mode), yet
`read_and_validate_experiment_config` logs only **one** error for it — so
the claim that one error is reported per violated rule, covering all
violations, is false.  The single `ValidationError` is still raised. -/
theorem single_error_logged_for_doubly_violating_param :
    (paramRuleViolations (localExperiment mixedCaseFilestoreConfig)
        mixedCaseFilestoreConfig "experiment_filestore").length = 2 ∧
    loggedErrors mixedCaseFilestoreConfig =
      [ConfigError.notLowercaseString "experiment_filestore"] ∧
    read_and_validate_experiment_config mixedCaseFilestoreConfig =
      .error "Config is invalid." := by
  decide

/-- C3, amended: `read_and_validate_experiment_config` logs one error per
*violating required parameter* — the first rule, in the source's check
order (missing key, non-int for an int key, non-lowercase-string for a
string key, wrong filestore scheme), among the rules that parameter
violates — covering every violating parameter rather than only the first,
and raises a single `ValidationError` at the end iff at least one required
parameter violates some rule. -/
theorem one_error_per_violating_param_and_raise_iff_any (config : Config) :
    (∀ param, paramError (localExperiment config) config param =
        (paramRuleViolations (localExperiment config) config param).head?) ∧
    (read_and_validate_experiment_config config = .ok config ↔
      ∀ p ∈ required_params (localExperiment config),
        paramRuleViolations (localExperiment config) config p = []) := by
  constructor
  · intro param
    exact paramError_eq_head_violations _ _ _
  · rw [validate_ok_iff, configValid_iff]
    constructor
    · intro h p hp
      have hh := h p hp
      rw [paramError_eq_head_violations] at hh
      exact List.head?_eq_none_iff.mp hh
    · intro h p hp
      rw [paramError_eq_head_violations, h p hp]
      rfl

/-- C3, witness: the amended statement evaluated at the two concrete
configs, giving a concrete accepted run and a concrete logged error. -/
theorem one_error_per_violating_param_witness :
    paramError (localExperiment mixedCaseFilestoreConfig)
        mixedCaseFilestoreConfig "experiment_filestore" =
      (paramRuleViolations (localExperiment mixedCaseFilestoreConfig)
        mixedCaseFilestoreConfig "experiment_filestore").head? ∧
    read_and_validate_experiment_config legacyBucketConfig =
      .ok legacyBucketConfig :=
  ⟨(one_error_per_violating_param_and_raise_iff_any
      mixedCaseFilestoreConfig).1 "experiment_filestore",
   (one_error_per_violating_param_and_raise_iff_any
      legacyBucketConfig).2.mpr (by decide)⟩

/-! ## C4 — filestore scheme must match the deployment mode -/

/-- A guarded singleton list is empty only when its guard fails. -/
theorem if_singleton_eq_nil {C : Prop} [Decidable C] {e : ConfigError}
    (h : (if C then [e] else []) = []) : ¬C := by
  intro hC
  rw [if_pos hC] at h
  exact List.cons_ne_nil _ _ h

/-- A present filestore value with the wrong scheme for the deployment
mode always trips some check of the loop (possibly the string check, when
the value is not even a lowercase string). -/
theorem paramError_some_of_bad_scheme (config : Config) (param : String)
    (v : Value) (hf : param ∈ filestore_params)
    (hg : configGet config param = some v)
    (hs : filestoreSchemeOk (localExperiment config) v = false) :
    paramError (localExperiment config) config param ≠ none := by
  rw [paramError_eq_head_violations]
  intro hnone
  have hnil := List.head?_eq_none_iff.mp hnone
  unfold paramRuleViolations at hnil
  rw [hg] at hnil
  rcases List.append_eq_nil.mp hnil with ⟨h123, h4⟩
  rcases List.append_eq_nil.mp h123 with ⟨h12, h3⟩
  have hn3 := if_singleton_eq_nil h3
  have hn4 := if_singleton_eq_nil h4
  unfold filestoreSchemeOk at hs
  cases hl : localExperiment config with
  | true =>
    rw [hl] at hs
    simp only [if_true] at hs
    exact hn3 ⟨hf, by rw [hl], by simp [hs]⟩
  | false =>
    rw [hl] at hs
    simp only [Bool.false_eq_true, if_false] at hs
    exact hn4 ⟨hf, by rw [hl]; simp, by simp [hs]⟩

/-- C4: for every config in which a filestore parameter is present with a
value whose scheme does not match the deployment mode (`/`-rooted for a
local experiment, `gs://` for a cloud one), validation raises
`ValidationError`. -/
theorem filestore_scheme_mismatch_rejected (config : Config)
    (param : String) (v : Value) (hf : param ∈ filestore_params)
    (hg : configGet config param = some v)
    (hs : filestoreSchemeOk (localExperiment config) v = false) :
    read_and_validate_experiment_config config =
      .error "Config is invalid." := by
  apply validate_error_of_invalid
  cases hv : configValid config with
  | false => rfl
  | true =>
    exact absurd
      ((configValid_iff config).mp hv param (filestore_mem_required _ _ hf))
      (paramError_some_of_bad_scheme config param v hf hg hs)

/-- C4, witness: a local experiment whose `experiment_filestore` is a
`gs://` URI is rejected. -/
theorem filestore_scheme_mismatch_rejected_witness :
    filestoreSchemeOk (localExperiment wrongSchemeConfig)
      (.vStr "gs://bucket") = false ∧
    read_and_validate_experiment_config wrongSchemeConfig =
      .error "Config is invalid." :=
  ⟨by decide,
   filestore_scheme_mismatch_rejected wrongSchemeConfig
     "experiment_filestore" (.vStr "gs://bucket")
     (by decide) (by decide) (by decide)⟩

/-! ## C5 — full fuzzer name resolution -/

/-- C5: `get_full_fuzzer_name` returns the `fuzzer` value when no `name`
key is present, and `fuzzer` + `'_'` + `name` when one is; in particular
`{"fuzzer": "afl"}` resolves to `afl` and
`{"fuzzer": "afl", "name": "v2"}` to `afl_v2`. -/
theorem full_fuzzer_name_resolution (cfg : FuzzerConfig) (f n : String) :
    (containsKey cfg "name" = false →
      configGet cfg "fuzzer" = some (.vStr f) →
      get_full_fuzzer_name cfg = some f) ∧
    (configGet cfg "fuzzer" = some (.vStr f) →
      configGet cfg "name" = some (.vStr n) →
      get_full_fuzzer_name cfg = some (f ++ "_" ++ n)) ∧
    get_full_fuzzer_name [("fuzzer", .vStr "afl")] = some "afl" ∧
    get_full_fuzzer_name [("fuzzer", .vStr "afl"), ("name", .vStr "v2")] =
      some "afl_v2" := by
  refine ⟨?_, ?_, by decide, by decide⟩
  · intro hn hf
    unfold get_full_fuzzer_name
    rw [hn, hf]
    rfl
  · intro hf hn
    have hk : containsKey cfg "name" = true := by
      unfold containsKey
      rw [hn]
      rfl
    unfold get_full_fuzzer_name
    rw [hk, hf, hn]
    rfl

/-- C5, witness: the two implications of the theorem evaluated at the two
concrete fuzzer configs of the claim. -/
theorem full_fuzzer_name_resolution_witness :
    get_full_fuzzer_name [("fuzzer", .vStr "afl")] = some "afl" ∧
    get_full_fuzzer_name [("fuzzer", .vStr "afl"), ("name", .vStr "v2")] =
      some "afl_v2" :=
  ⟨(full_fuzzer_name_resolution [("fuzzer", .vStr "afl")] "afl" "v2").1
     (by decide) (by decide),
   (full_fuzzer_name_resolution
     [("fuzzer", .vStr "afl"), ("name", .vStr "v2")] "afl" "v2").2.1
     (by decide) (by decide)⟩

/-! ## C6 — the archive denylist filter -/

/-- C6: the tar filter of `copy_resources_to_bucket` drops exactly the
members whose path matches `FILTER_SOURCE_REGEX` and keeps every other
member unchanged; in particular `.git/config` is excluded from the
archive and `benchmarks/foo/build.sh` is kept. -/
theorem filter_file_excludes_denylist_only :
    (∀ p, matchesFilterSourceRegex p = true → filter_file p = none) ∧
    (∀ p, matchesFilterSourceRegex p = false → filter_file p = some p) ∧
    filter_file ".git/config" = none ∧
    filter_file "benchmarks/foo/build.sh" =
      some "benchmarks/foo/build.sh" := by
  refine ⟨?_, ?_, by decide, by decide⟩ <;>
    intro p h <;> unfold filter_file <;> rw [h] <;> rfl

/-- C6, witness: the two implications of the theorem evaluated at the two
concrete paths of the claim. -/
theorem filter_file_excludes_denylist_only_witness :
    filter_file ".git/config" = none ∧
    filter_file "benchmarks/foo/build.sh" =
      some "benchmarks/foo/build.sh" :=
  ⟨filter_file_excludes_denylist_only.1 ".git/config" (by decide),
   filter_file_excludes_denylist_only.2.1 "benchmarks/foo/build.sh"
     (by decide)⟩

/-! ## C7 — dispatcher factory -/

/-- C7: `get_dispatcher` returns the local dispatcher when the config's
`local_experiment` value is truthy, the Google Cloud dispatcher when the
key is absent, and never any other variant. -/
theorem get_dispatcher_selection (config : Config) (v : Value) :
    (configGet config "local_experiment" = some v → truthy v = true →
      get_dispatcher config = .localDispatcher config) ∧
    (configGet config "local_experiment" = none →
      get_dispatcher config = .googleCloudDispatcher config) ∧
    (get_dispatcher config = .localDispatcher config ∨
      get_dispatcher config = .googleCloudDispatcher config) := by
  refine ⟨?_, ?_, ?_⟩
  · intro hg ht
    unfold get_dispatcher truthyOpt
    rw [hg]
    simp [ht]
  · intro hg
    unfold get_dispatcher truthyOpt
    rw [hg]
    rfl
  · unfold get_dispatcher
    split
    · exact Or.inl rfl
    · exact Or.inr rfl

/-- C7, witness: the factory evaluated on a `local_experiment: true`
config and on a config without the key. -/
theorem get_dispatcher_selection_witness :
    get_dispatcher [("local_experiment", .vBool true)] =
      .localDispatcher [("local_experiment", .vBool true)] ∧
    get_dispatcher cloudNoProjectConfig =
      .googleCloudDispatcher cloudNoProjectConfig :=
  ⟨(get_dispatcher_selection [("local_experiment", .vBool true)]
      (.vBool true)).1 (by decide) (by decide),
   (get_dispatcher_selection cloudNoProjectConfig (.vBool true)).2.1
     (by decide)⟩

/-! ## C8 — launch-sequence ordering -/

/-- In a trace whose events appear in strictly increasing program rank,
positions respect the rank order. -/
theorem index_lt_of_rank_lt {t : List LaunchEvent}
    (hp : t.Pairwise fun a b => eventRank a < eventRank b)
    {i j : Nat} {a b : LaunchEvent}
    (ha : t.get? i = some a) (hb : t.get? j = some b)
    (hab : eventRank a < eventRank b) : i < j := by
  obtain ⟨hi, hgi⟩ := List.get?_eq_some.mp ha
  obtain ⟨hj, hgj⟩ := List.get?_eq_some.mp hb
  by_contra hij
  push_neg at hij
  rcases Nat.lt_or_ge j i with hji | hji
  · have h := List.pairwise_iff_get.mp hp ⟨j, hj⟩ ⟨i, hi⟩ hji
    rw [hgi, hgj] at h
    omega
  · have hij' : i = j := Nat.le_antisymm hji hij
    subst hij'
    rw [ha] at hb
    cases hb
    omega

/-- Every launch trace lists its events in strictly increasing program
rank, for any combination of the deployment-mode and manual-mode flags. -/
theorem start_experiment_trace_ordered (localExp manual : Bool) :
    (start_experiment_trace localExp manual).Pairwise
      (fun a b => eventRank a < eventRank b) := by
  cases localExp <;> cases manual <;> decide

/-- C8: in every launch trace — whatever the deployment mode and the
`MANUAL_EXPERIMENT` flag — the experiment config file and the fuzzer
config files are written strictly before `copy_resources_to_bucket`
appears, and `dispatcher.start()` appears only strictly after
`copy_resources_to_bucket`. -/
theorem launch_trace_ordering (localExp manual : Bool) (i j : Nat) :
    (((start_experiment_trace localExp manual).get? i =
        some LaunchEvent.writeExperimentConfigFile ∨
      (start_experiment_trace localExp manual).get? i =
        some LaunchEvent.writeFuzzerConfigFiles) →
      (start_experiment_trace localExp manual).get? j =
        some LaunchEvent.copyResourcesToBucket →
      i < j) ∧
    ((start_experiment_trace localExp manual).get? i =
        some LaunchEvent.copyResourcesToBucket →
      (start_experiment_trace localExp manual).get? j =
        some LaunchEvent.dispatcherStart →
      i < j) := by
  constructor
  · rintro (ha | ha) hb <;>
      exact index_lt_of_rank_lt (start_experiment_trace_ordered _ _) ha hb
        (by decide)
  · intro ha hb
    exact index_lt_of_rank_lt (start_experiment_trace_ordered _ _) ha hb
      (by decide)

/-- C8, witness: in the cloud, non-manual trace the fuzzer config files
are written at position 5, bundling runs at position 9 and the dispatcher
starts at position 10. -/
theorem launch_trace_ordering_witness :
    (start_experiment_trace false false).get? 5 =
      some LaunchEvent.writeFuzzerConfigFiles ∧
    (start_experiment_trace false false).get? 9 =
      some LaunchEvent.copyResourcesToBucket ∧
    (start_experiment_trace false false).get? 10 =
      some LaunchEvent.dispatcherStart ∧
    5 < 9 ∧ 9 < 10 :=
  ⟨by decide, by decide, by decide,
   (launch_trace_ordering false false 5 9).1 (Or.inr (by decide)) (by decide),
   (launch_trace_ordering false false 9 10).2 (by decide) (by decide)⟩

/-! ## C9 — `cloud_project` is never validated but read unconditionally -/

/-- C9: validation never requires `cloud_project` (it is in neither
mode's required-parameter set, and `localNoProjectConfig` passes
validation as a local experiment without it), yet `LocalDispatcher.start`
reads `config['cloud_project']` by subscript and therefore raises
`KeyError` on every validated config lacking the key — as does the
project switch of `start_experiment` for non-local configs. -/
theorem cloud_project_unchecked_but_read_at_start :
    (read_and_validate_experiment_config localNoProjectConfig =
        .ok localNoProjectConfig ∧
      localExperiment localNoProjectConfig = true ∧
      configGet localNoProjectConfig "cloud_project" = none) ∧
    ("cloud_project" ∉ required_params true ∧
      "cloud_project" ∉ required_params false) ∧
    (∀ inst config,
      read_and_validate_experiment_config config = .ok config →
      configGet config "cloud_project" = none →
      localDispatcherStart inst config = .error "cloud_project") ∧
    (∀ config,
      read_and_validate_experiment_config config = .ok config →
      localExperiment config = false →
      configGet config "cloud_project" = none →
      startExperimentProjectSwitch true config = .error "cloud_project") := by
  refine ⟨by decide, by decide, ?_, ?_⟩
  · intro inst config hok hcp
    have hv := (validate_ok_iff config).mp hok
    have hef : paramError (localExperiment config) config
        "experiment_filestore" = none :=
      (configValid_iff config).mp hv _ (filestore_mem_required _ _ (by decide))
    obtain ⟨v, hg⟩ := paramError_none_elim _ _ _ hef
    unfold localDispatcherStart configSubscript
    rw [hg, hcp]
  · intro config hok hl hcp
    unfold startExperimentProjectSwitch configSubscript
    rw [hl, hcp]
    rfl

/-- C9, witness: the two `KeyError` conclusions evaluated at the concrete
validated configs without `cloud_project`. -/
theorem cloud_project_unchecked_but_read_at_start_witness :
    localDispatcherStart "dispatcher-test-experiment" localNoProjectConfig =
      .error "cloud_project" ∧
    startExperimentProjectSwitch true cloudNoProjectConfig =
      .error "cloud_project" :=
  ⟨cloud_project_unchecked_but_read_at_start.2.2.1
     "dispatcher-test-experiment" localNoProjectConfig (by decide) (by decide),
   cloud_project_unchecked_but_read_at_start.2.2.2
     cloudNoProjectConfig (by decide) (by decide) (by decide)⟩

/-! ## C10 — empty-string variant names -/

/-- C10: a fuzzer config whose `name` key is present but maps to the empty
string passes `validate_fuzzer_config` (the charset check is guarded by
truthiness, which the empty string fails), and `get_full_fuzzer_name` —
which tests key *presence*, not truthiness — appends the underscore
anyway, yielding the base name with a trailing underscore. -/
theorem empty_variant_name_accepted_with_trailing_underscore
    (dirs : List String) (cfg : FuzzerConfig) (f : String)
    (hfz : configGet cfg "fuzzer" = some (.vStr f))
    (hnm : configGet cfg "name" = some (.vStr ""))
    (hkeys : (cfg.all fun kv =>
      kv.1 ∈ (["name", "env", "fuzzer"] : List String)) = true)
    (henv : envFieldOk cfg = true)
    (hre : matchesFuzzerNameRegex f = true)
    (hin : f ∈ dirs) :
    validate_fuzzer_config dirs cfg = .ok () ∧
    get_full_fuzzer_name cfg = some (f ++ "_") := by
  have hck : containsKey cfg "fuzzer" = true := by
    unfold containsKey
    rw [hfz]
    rfl
  have hckn : containsKey cfg "name" = true := by
    unfold containsKey
    rw [hnm]
    rfl
  have hfne : f ≠ "" := fun hh => absurd (hh ▸ hre) (by decide)
  have htr : truthy (Value.vStr f) = true := by
    simp only [truthy]
    exact bne_iff_ne.mpr hfne
  have henvcond : (containsKey cfg "env" &&
      !(match configGet cfg "env" with
        | some (.vDict _) => true
        | _ => false)) = false := by
    unfold envFieldOk at henv
    unfold containsKey
    cases hge : configGet cfg "env" with
    | none => rfl
    | some val => cases val <;> simp_all
  constructor
  · unfold validate_fuzzer_config
    rw [if_neg (fun hn => hn hck)]
    rw [if_neg (fun hn => hn hkeys)]
    rw [if_neg (by simp [henvcond])]
    rw [if_neg (by rw [hnm]; decide)]
    unfold validateFuzzerValue
    rw [if_pos (by rw [hfz]; exact htr)]
    rw [hfz]
    unfold validate_fuzzer
    simp only [Option.some_bind, Value.asString]
    rw [if_neg (fun hn => hn hre)]
    rw [if_neg (fun hn => hn hin)]
  · unfold get_full_fuzzer_name
    rw [hckn, hfz, hnm]
    simp [Value.asString]

/-- C10, witness: the concrete config `{"fuzzer": "afl", "name": ""}`
against a fuzzers directory containing `afl`. -/
theorem empty_variant_name_witness :
    validate_fuzzer_config ["afl"]
      [("fuzzer", .vStr "afl"), ("name", .vStr "")] = .ok () ∧
    get_full_fuzzer_name [("fuzzer", .vStr "afl"), ("name", .vStr "")] =
      some "afl_" :=
  empty_variant_name_accepted_with_trailing_underscore ["afl"]
    [("fuzzer", .vStr "afl"), ("name", .vStr "")] "afl"
    (by decide) (by decide) (by decide) (by decide) (by decide) (by decide)

end RunExperiment
